import Mathlib

/-!
Shallow embedding of `src/http_client.rs` from the http-client-example
repository (a small curl-based HTTP client that streams the response body
to a file), together with theorems settling the specification claims.

Modelling conventions:
* Byte values are `Nat` (always `< 256` in any input of interest); byte
  buffers are `List Nat`.
* The external collaborators (the curl easy handle, the async-curl engine
  and the filesystem) are modelled by explicit state records plus
  environment records that decide whether each fallible collaborator call
  succeeds, mirroring the `Result`-returning API the Rust code calls.
* A Rust panic (the `assert_eq!` in `request`) is a distinct outcome
  constructor, separate from `Ok`/`Err`.
-/

set_option autoImplicit false

namespace HttpClientExample

/-- Model of `curl::Error` (an opaque transport-engine error carrying a code). -/
structure CurlError where
  code : Nat
deriving DecidableEq, Repr

/-- Model of `async_curl::async_curl_error::AsyncCurlError`. -/
structure AsyncCurlError where
  code : Nat
deriving DecidableEq, Repr

/-- Model of `std::io::Error` (an opaque I/O failure carrying a code). -/
structure IoError where
  code : Nat
deriving DecidableEq, Repr

/-- Model of `url::ParseError`. -/
structure UrlParseError where
  code : Nat
deriving DecidableEq, Repr

/-- Model of `http::Error`: the two ways the code can produce one are
`StatusCode::from_u16` failing (`InvalidStatusCode`) and
`HeaderValue::from_str` failing (`InvalidHeaderValue`). -/
inductive HttpSpecError where
  | invalidStatusCode
  | invalidHeaderValue
deriving DecidableEq, Repr

/-- The `Error` enum of `http_client.rs`: the closed error taxonomy. -/
inductive Error where
  | Curl : CurlError → Error
  | Http : HttpSpecError → Error
  | AsyncCurl : AsyncCurlError → Error
  | IOError : IoError → Error
  | ParseError : UrlParseError → Error
  | Other : String → Error
deriving DecidableEq, Repr

/-- Model of `http::method::Method`, restricted to the shapes the code
distinguishes: `GET`, `POST`, and every other method (carrying its name). -/
inductive Method where
  | GET
  | POST
  | other : String → Method
deriving DecidableEq, Repr

/-- A header collection: association list of header name to raw value bytes,
in iteration order of the `http::HeaderMap`. -/
abbrev Headers := List (String × List Nat)

/-- The `HttpRequest` struct. The URL is kept as its already-parsed string
form (`request.url.to_string()` is all the code uses). -/
structure HttpRequest where
  url : String
  method : Method
  headers : Headers
  body : List Nat
deriving DecidableEq, Repr

/-- The `HttpResponse` struct. `status_code` is the validated numeric status. -/
structure HttpResponse where
  status_code : Nat
  headers : Headers
  body : List Nat
deriving DecidableEq, Repr

/-- Model of `curl::easy::WriteError`; the crate's enum has the single
variant `Pause`. -/
inductive WriteError where
  | Pause
deriving DecidableEq, Repr

/-- The `DownloadHandler` struct: an open append-mode file handle plus the
remembered target path. `file` is the current contents of the file the
handle appends to. -/
structure DownloadHandler where
  file : List Nat
  path : String
deriving DecidableEq, Repr

/-- `DownloadHandler::write` (the `curl::easy::Handler` impl):
`self.file.write_all(data)` either appends the whole chunk and returns
`Ok(data.len())`, or fails and the method returns `Err(WriteError::Pause)`.
`writeOk` is the outcome of the underlying `write_all` call (the filesystem
collaborator). Returns the method result and the handler afterwards. -/
def DownloadHandler.write (h : DownloadHandler) (data : List Nat) (writeOk : Bool) :
    Except WriteError Nat × DownloadHandler :=
  if writeOk then
    (Except.ok data.length, { h with file := h.file ++ data })
  else
    (Except.error WriteError.Pause, h)

/-- `DownloadHandler::new`: opens the file at `path` with
create-if-absent/append; `existing` is the contents already on disk
(`none` if no file exists, so the created file starts empty), and
`openErr` is the failure of the `open` call when the filesystem rejects it. -/
def DownloadHandler.new (path : String) (existing : Option (List Nat))
    (openErr : Option IoError) : Except Error DownloadHandler :=
  match openErr with
  | some e => Except.error (Error.IOError e)
  | none => Except.ok { file := existing.getD [], path := path }

/-- `DownloadHandler::existing_file_size`: `std::fs::metadata(&self.path)`
yields `md` (`some S` when the file exists with size `S`, `none` when it
does not exist or cannot be stat'ed); the method returns the size or `0`. -/
def DownloadHandler.existing_file_size (_h : DownloadHandler) (md : Option Nat) : Nat :=
  match md with
  | some s => s
  | none => 0

/-- Iterated `DownloadHandler.write` with every underlying file write
succeeding: delivers the chunks in order, collecting each call's result. -/
def DownloadHandler.acceptAll (h : DownloadHandler) :
    List (List Nat) → List (Except WriteError Nat) × DownloadHandler
  | [] => ([], h)
  | c :: cs =>
    let r := h.write c true
    let rest := DownloadHandler.acceptAll r.2 cs
    (r.1 :: rest.1, rest.2)

theorem acceptAll_file (cs : List (List Nat)) :
    ∀ h : DownloadHandler, (h.acceptAll cs).2.file = h.file ++ cs.flatten := by
  induction cs with
  | nil => intro h; simp [DownloadHandler.acceptAll]
  | cons c cs ih =>
    intro h
    simp [DownloadHandler.acceptAll, DownloadHandler.write, ih]

theorem acceptAll_results (cs : List (List Nat)) :
    ∀ h : DownloadHandler,
      (h.acceptAll cs).1 = cs.map (fun c => Except.ok c.length) := by
  induction cs with
  | nil => intro h; simp [DownloadHandler.acceptAll]
  | cons c cs ih =>
    intro h
    simp [DownloadHandler.acceptAll, DownloadHandler.write, ih]

/-- `HeaderValue::to_str` of the `http` crate succeeds exactly when every
byte is visible ASCII (`32 ≤ b < 127`) or horizontal tab (`9`). -/
def headerValueToStrOk (v : List Nat) : Bool :=
  v.all (fun b => (decide (32 ≤ b) && decide (b < 127)) || b == 9)

/-- The message of the `Error::Other` produced for a non-representable
header value: `format!("invalid {} header value {:?}", name, value.as_bytes())`,
with the byte slice rendered in Rust `Debug` form `[b0, b1, ...]`. -/
def invalidHeaderMsg (name : String) (v : List Nat) : String :=
  "invalid " ++ name ++ " header value [" ++
    String.intercalate ", " (v.map toString) ++ "]"

/-- The `"Name: Value"` line appended to the curl header list
(`format!("{}: {}", name, value.to_str()?)`). -/
def headerLine (name : String) (v : List Nat) : String :=
  name ++ ": " ++ String.mk (v.map Char.ofNat)

/-- Behaviour of the curl easy-handle mutators for one `request` run: each
field tells whether the corresponding fallible collaborator call succeeds,
and `curlErr` is the `curl::Error` it reports when it fails. -/
structure CurlEnv where
  urlOk : Bool
  appendOk : Bool
  httpHeadersOk : Bool
  postOk : Bool
  postFieldSizeOk : Bool
  postFieldsCopyOk : Bool
  curlErr : CurlError
deriving DecidableEq, Repr

/-- State of the `curl::easy::Easy2<DownloadHandler>` handle: the embedded
handler plus the configuration the code installs on it. -/
structure Easy2 where
  handler : DownloadHandler
  url : Option String
  httpHeaders : Option (List String)
  post : Bool
  postFieldSize : Option Nat
  postFields : Option (List Nat)
deriving DecidableEq, Repr

/-- A fresh `Easy2::new(handler)`: no URL, no header list, no body marks. -/
def Easy2.new (h : DownloadHandler) : Easy2 :=
  { handler := h, url := none, httpHeaders := none, post := false
    postFieldSize := none, postFields := none }

/-- `Easy2::url` mutator. -/
def Easy2.set_url (env : CurlEnv) (e : Easy2) (u : String) : Except CurlError Easy2 :=
  if env.urlOk then Except.ok { e with url := some u } else Except.error env.curlErr

/-- `Easy2::http_headers` mutator: installs the translated header list. -/
def Easy2.set_http_headers (env : CurlEnv) (e : Easy2) (hs : List String) :
    Except CurlError Easy2 :=
  if env.httpHeadersOk then Except.ok { e with httpHeaders := some hs }
  else Except.error env.curlErr

/-- `Easy2::post` mutator: marks the handle for a body-bearing request. -/
def Easy2.set_post (env : CurlEnv) (e : Easy2) (b : Bool) : Except CurlError Easy2 :=
  if env.postOk then Except.ok { e with post := b } else Except.error env.curlErr

/-- `Easy2::post_field_size` mutator: declares the body length
(`request.body.len() as u64`; `usize → u64` is lossless, so plain `Nat`). -/
def Easy2.set_post_field_size (env : CurlEnv) (e : Easy2) (n : Nat) :
    Except CurlError Easy2 :=
  if env.postFieldSizeOk then Except.ok { e with postFieldSize := some n }
  else Except.error env.curlErr

/-- `Easy2::post_fields_copy` mutator: attaches a copy of the body bytes. -/
def Easy2.set_post_fields_copy (env : CurlEnv) (e : Easy2) (b : List Nat) :
    Except CurlError Easy2 :=
  if env.postFieldsCopyOk then Except.ok { e with postFields := some b }
  else Except.error env.curlErr

/-- The Build-phase `HttpClient<Build>`: the async-curl engine reference
(an opaque id) and the easy handle. -/
structure HttpClientBuild where
  curl : Nat
  easy : Easy2
deriving DecidableEq, Repr

/-- The Perform-phase `HttpClient<Perform>`. -/
structure HttpClientPerform where
  curl : Nat
  easy : Easy2
deriving DecidableEq, Repr

/-- `HttpClient::<Build>::new`. -/
def HttpClientBuild.new (curl : Nat) (easy : Easy2) : HttpClientBuild :=
  { curl := curl, easy := easy }

/-- One invocation of an easy-handle mutator (or of `List::append` on the
local curl header list), recorded in order of invocation. -/
inductive Mut where
  | url
  | appendHeader
  | http_headers
  | post
  | post_field_size
  | post_fields_copy
deriving DecidableEq, Repr

/-- Outcome of `HttpClient::<Build>::request`: `Ok`, `Err`, or a Rust
panic raised by the `assert_eq!`. -/
inductive ReqOutcome where
  | ok : HttpClientPerform → ReqOutcome
  | err : Error → ReqOutcome
  | fatal
deriving DecidableEq, Repr

/-- Whether a request outcome is an `Error::Http` (HTTP-spec kind) error. -/
def ReqOutcome.isHttpErr : ReqOutcome → Bool
  | ReqOutcome.err (Error.Http _) => true
  | _ => false

/-- The header-translation loop of `request`: for each `(name, value)` pair
in order, `value.to_str()` (failing with the `Error::Other` invalid-header
message) and then `List::append` of the `"Name: Value"` line (failing with
`Error::Curl`). Returns the translated lines and the invocation trace. -/
def buildHeaderLines (env : CurlEnv) :
    Headers → Except Error (List String) × List Mut
  | [] => (Except.ok [], [])
  | (n, v) :: rest =>
    if headerValueToStrOk v then
      if env.appendOk then
        match buildHeaderLines env rest with
        | (Except.ok ls, t) => (Except.ok (headerLine n v :: ls), Mut.appendHeader :: t)
        | (Except.error e, t) => (Except.error e, Mut.appendHeader :: t)
      else (Except.error (Error.Curl env.curlErr), [Mut.appendHeader])
    else (Except.error (Error.Other (invalidHeaderMsg n v)), [])

/-- `HttpClient::<Build>::request`: sets the URL, translates and installs
the headers, then branches on the method (POST configures the body; GET
asserts the method; anything else panics at the `assert_eq!`). The second
component is the trace of collaborator calls invoked on the handle. -/
def HttpClientBuild.request (env : CurlEnv) (c : HttpClientBuild) (r : HttpRequest) :
    ReqOutcome × List Mut :=
  match Easy2.set_url env c.easy r.url with
  | Except.error e => (ReqOutcome.err (Error.Curl e), [Mut.url])
  | Except.ok easy1 =>
    match buildHeaderLines env r.headers with
    | (Except.error e, t) => (ReqOutcome.err e, Mut.url :: t)
    | (Except.ok lines, t) =>
      match Easy2.set_http_headers env easy1 lines with
      | Except.error e =>
        (ReqOutcome.err (Error.Curl e), Mut.url :: (t ++ [Mut.http_headers]))
      | Except.ok easy2 =>
        match r.method with
        | Method.POST =>
          match Easy2.set_post env easy2 true with
          | Except.error e =>
            (ReqOutcome.err (Error.Curl e),
             Mut.url :: (t ++ [Mut.http_headers, Mut.post]))
          | Except.ok easy3 =>
            match Easy2.set_post_field_size env easy3 r.body.length with
            | Except.error e =>
              (ReqOutcome.err (Error.Curl e),
               Mut.url :: (t ++ [Mut.http_headers, Mut.post, Mut.post_field_size]))
            | Except.ok easy4 =>
              match Easy2.set_post_fields_copy env easy4 r.body with
              | Except.error e =>
                (ReqOutcome.err (Error.Curl e),
                 Mut.url :: (t ++ [Mut.http_headers, Mut.post,
                                   Mut.post_field_size, Mut.post_fields_copy]))
              | Except.ok easy5 =>
                (ReqOutcome.ok { curl := c.curl, easy := easy5 },
                 Mut.url :: (t ++ [Mut.http_headers, Mut.post,
                                   Mut.post_field_size, Mut.post_fields_copy]))
        | Method.GET =>
          (ReqOutcome.ok { curl := c.curl, easy := easy2 },
           Mut.url :: (t ++ [Mut.http_headers]))
        | Method.other _ =>
          (ReqOutcome.fatal, Mut.url :: (t ++ [Mut.http_headers]))

/-- The header name constant `http::header::CONTENT_TYPE`. -/
def CONTENT_TYPE : String := "content-type"

/-- `HeaderValue::from_str` of the `http` crate succeeds exactly when every
byte satisfies `b >= 32 && b != 127 || b == 9`. -/
def headerValueFromStrOk (v : List Nat) : Bool :=
  v.all (fun b => (decide (32 ≤ b) && !(b == 127)) || b == 9)

/-- `StatusCode::from_u16`: legal HTTP status codes are `100 ≤ n < 1000`. -/
def statusFromU16 (n : Nat) : Except HttpSpecError Nat :=
  if 100 ≤ n ∧ n < 1000 then Except.ok n else Except.error HttpSpecError.invalidStatusCode

/-- Behaviour of the transport during one `perform` run: whether
`send_request` and the two post-completion accessors succeed, and the data
the completed handle reports (`response_code` is a `u32`, so
`responseCode < 2^32`; `contentType` is the bytes of the reported
content-type string, `none` when the transport reports none). -/
structure PerformEnv where
  sendOk : Bool
  asyncErr : AsyncCurlError
  responseCodeOk : Bool
  contentTypeOk : Bool
  curlErr : CurlError
  responseCode : Nat
  contentType : Option (List Nat)
deriving DecidableEq, Repr

/-- `HttpClient::<Perform>::perform`: sends the handle through the
async-curl engine, reads the status code (`as u16` truncates modulo
`2^16`), rebuilds a minimal header collection from the reported
content-type, and assembles the `HttpResponse` with an empty body
(`let data = Vec::new()`), validating the status with
`StatusCode::from_u16` at construction time. -/
def HttpClientPerform.perform (env : PerformEnv) (_c : HttpClientPerform) :
    Except Error HttpResponse :=
  if env.sendOk then
    if env.responseCodeOk then
      let status_code := env.responseCode % 65536
      if env.contentTypeOk then
        match env.contentType with
        | some ct =>
          if headerValueFromStrOk ct then
            match statusFromU16 status_code with
            | Except.ok sc =>
              Except.ok { status_code := sc, headers := [(CONTENT_TYPE, ct)], body := [] }
            | Except.error e => Except.error (Error.Http e)
          else Except.error (Error.Http HttpSpecError.invalidHeaderValue)
        | none =>
          match statusFromU16 status_code with
          | Except.ok sc =>
            Except.ok { status_code := sc, headers := [], body := [] }
          | Except.error e => Except.error (Error.Http e)
      else Except.error (Error.Curl env.curlErr)
    else Except.error (Error.Curl env.curlErr)
  else Except.error (Error.AsyncCurl env.asyncErr)

/-- All header values in the collection survive `HeaderValue::to_str`. -/
def headersAllValid (hs : Headers) : Bool :=
  hs.all (fun p => headerValueToStrOk p.2)

/-- The first header pair whose value fails `HeaderValue::to_str`. -/
def firstInvalidHeader (hs : Headers) : Option (String × List Nat) :=
  hs.find? (fun p => !headerValueToStrOk p.2)

/-- The translated header lines, in order, when every value is valid. -/
def headerLines (hs : Headers) : List String :=
  hs.map (fun p => headerLine p.1 p.2)

theorem buildHeaderLines_all_valid (env : CurlEnv) (hap : env.appendOk = true) :
    ∀ hs : Headers, headersAllValid hs = true →
      buildHeaderLines env hs =
        (Except.ok (headerLines hs), hs.map (fun _ => Mut.appendHeader)) := by
  intro hs
  induction hs with
  | nil => intro _; simp [buildHeaderLines, headerLines]
  | cons p rest ih =>
    intro hall
    obtain ⟨n, v⟩ := p
    simp only [headersAllValid, List.all_cons, Bool.and_eq_true] at hall
    have hrest := ih hall.2
    simp [buildHeaderLines, hall.1, hap, hrest, headerLines]

theorem buildHeaderLines_first_invalid (env : CurlEnv) (hap : env.appendOk = true)
    (n : String) (v : List Nat) :
    ∀ hs : Headers, firstInvalidHeader hs = some (n, v) →
      (buildHeaderLines env hs).1 = Except.error (Error.Other (invalidHeaderMsg n v)) := by
  intro hs
  induction hs with
  | nil => intro h; simp [firstInvalidHeader] at h
  | cons p rest ih =>
    intro h
    obtain ⟨m, w⟩ := p
    by_cases hv : headerValueToStrOk w = true
    · have hrest : firstInvalidHeader rest = some (n, v) := by
        simpa [firstInvalidHeader, List.find?, hv] using h
      have := ih hrest
      rcases hb : buildHeaderLines env rest with ⟨res, t⟩
      rw [hb] at this
      cases res with
      | ok ls => simp at this
      | error e =>
        simp only at this
        simp [buildHeaderLines, hv, hap, hb, this]
    · have hveq : m = n ∧ w = v := by
        have := h
        simp [firstInvalidHeader, List.find?, hv] at this
        exact this
      obtain ⟨hm, hw⟩ := hveq
      subst hm
      subst hw
      simp [buildHeaderLines, hv]

theorem buildHeaderLines_trace_append_only (env : CurlEnv) :
    ∀ hs : Headers, ∀ m ∈ (buildHeaderLines env hs).2, m = Mut.appendHeader := by
  intro hs
  induction hs with
  | nil => intro m hm; simp [buildHeaderLines] at hm
  | cons p rest ih =>
    intro m hm
    obtain ⟨n, v⟩ := p
    by_cases hv : headerValueToStrOk v = true
    · by_cases ha : env.appendOk = true
      · rcases hb : buildHeaderLines env rest with ⟨res, t⟩
        rw [hb] at ih
        cases res with
        | ok ls =>
          simp [buildHeaderLines, hv, ha, hb] at hm
          rcases hm with hm | hm
          · exact hm
          · exact ih m hm
        | error e =>
          simp [buildHeaderLines, hv, ha, hb] at hm
          rcases hm with hm | hm
          · exact hm
          · exact ih m hm
      · simp [buildHeaderLines, hv, Bool.eq_false_iff.mpr ha] at hm
        simpa using hm
    · simp [buildHeaderLines, hv] at hm

/-- Whether a request outcome is an `Ok` carrying a Perform-phase handle. -/
def ReqOutcome.isOk : ReqOutcome → Bool
  | ReqOutcome.ok _ => true
  | _ => false

/-- Whether a reported content-type would survive `HeaderValue::from_str`
(vacuously true when none is reported). -/
def ctAccepted : Option (List Nat) → Bool
  | some ct => headerValueFromStrOk ct
  | none => true

/-- The minimal header collection `perform` reconstructs from the reported
content-type: one `content-type` entry, or nothing. -/
def ctHeaders : Option (List Nat) → Headers
  | some ct => [(CONTENT_TYPE, ct)]
  | none => []

theorem set_url_ok_inv {env : CurlEnv} {e e' : Easy2} {u : String}
    (h : Easy2.set_url env e u = Except.ok e') : e' = { e with url := some u } := by
  unfold Easy2.set_url at h
  split at h
  · cases h; rfl
  · cases h

theorem set_http_headers_ok_inv {env : CurlEnv} {e e' : Easy2} {hs : List String}
    (h : Easy2.set_http_headers env e hs = Except.ok e') :
    e' = { e with httpHeaders := some hs } := by
  unfold Easy2.set_http_headers at h
  split at h
  · cases h; rfl
  · cases h

theorem set_post_ok_inv {env : CurlEnv} {e e' : Easy2} {b : Bool}
    (h : Easy2.set_post env e b = Except.ok e') : e' = { e with post := b } := by
  unfold Easy2.set_post at h
  split at h
  · cases h; rfl
  · cases h

theorem set_post_field_size_ok_inv {env : CurlEnv} {e e' : Easy2} {n : Nat}
    (h : Easy2.set_post_field_size env e n = Except.ok e') :
    e' = { e with postFieldSize := some n } := by
  unfold Easy2.set_post_field_size at h
  split at h
  · cases h; rfl
  · cases h

theorem set_post_fields_copy_ok_inv {env : CurlEnv} {e e' : Easy2} {b : List Nat}
    (h : Easy2.set_post_fields_copy env e b = Except.ok e') :
    e' = { e with postFields := some b } := by
  unfold Easy2.set_post_fields_copy at h
  split at h
  · cases h; rfl
  · cases h

/-! Concrete fixtures used by the witness and counterexample theorems. -/

/-- An environment in which every easy-handle mutator call succeeds. -/
def okCurlEnv : CurlEnv :=
  { urlOk := true, appendOk := true, httpHeadersOk := true, postOk := true
    postFieldSizeOk := true, postFieldsCopyOk := true, curlErr := { code := 0 } }

/-- A handler freshly opened on an empty file. -/
def handler0 : DownloadHandler := { file := [], path := "out.bin" }

/-- A Build-phase client over a fresh easy handle. -/
def client0 : HttpClientBuild := HttpClientBuild.new 0 (Easy2.new handler0)

/-- A GET request with a non-empty body (one byte `65`). -/
def getBodyReq : HttpRequest :=
  { url := "https://example.test/a.bin", method := Method.GET
    headers := [], body := [65] }

/-- A valid GET request: empty body, no headers. -/
def getReq : HttpRequest :=
  { url := "https://example.test/a.bin", method := Method.GET
    headers := [], body := [] }

/-- A POST request with body bytes `[1, 2, 3]`. -/
def postReq : HttpRequest :=
  { url := "https://example.test/a.bin", method := Method.POST
    headers := [], body := [1, 2, 3] }

/-- A PUT request (a method the code does not handle). -/
def putReq : HttpRequest :=
  { url := "https://example.test/a.bin", method := Method.other "PUT"
    headers := [], body := [] }

/-- A request carrying one header whose value byte `200` is not visible
ASCII, so `HeaderValue::to_str` rejects it. -/
def badHeaderReq : HttpRequest :=
  { url := "https://example.test/a.bin", method := Method.GET
    headers := [("x-test", [200])], body := [] }

/-- A Perform-phase client. -/
def clientP : HttpClientPerform := { curl := 0, easy := Easy2.new handler0 }

/-- A transport completion reporting status `200` and no content-type. -/
def okPerformEnv : PerformEnv :=
  { sendOk := true, asyncErr := { code := 0 }, responseCodeOk := true
    contentTypeOk := true, curlErr := { code := 0 }
    responseCode := 200, contentType := none }

/-- A transport completion reporting status `200` and content-type bytes
`"text"`. -/
def ctPerformEnv : PerformEnv :=
  { sendOk := true, asyncErr := { code := 0 }, responseCodeOk := true
    contentTypeOk := true, curlErr := { code := 0 }
    responseCode := 200, contentType := some [116, 101, 120, 116] }

/-- A transport completion reporting the out-of-`u16`-range code `65636`,
whose 16-bit truncation is `100`. -/
def truncPerformEnv : PerformEnv :=
  { sendOk := true, asyncErr := { code := 0 }, responseCodeOk := true
    contentTypeOk := true, curlErr := { code := 0 }
    responseCode := 65636, contentType := none }

/-! Claim theorems. -/

/-- C3: for every chunk delivered to `DownloadHandler::write`, the call
returns `Ok(chunk.len())` when the underlying file write succeeds and
`Err(WriteError::Pause)` when it fails; being a total function, it never
panics. -/
theorem C3_sink_write_result (h : DownloadHandler) (data : List Nat) (writeOk : Bool) :
    (h.write data writeOk).1 =
      if writeOk then Except.ok data.length else Except.error WriteError.Pause := by
  by_cases hw : writeOk <;> simp [DownloadHandler.write, hw]

/-- C4: for a `DownloadHandler` freshly constructed on a path with no
existing file, after any sequence of successful write calls the file holds
exactly the concatenation of the delivered chunks in order, and every call
returned `Ok` of its chunk's length. -/
theorem C4_sink_append_concat (path : String) (h : DownloadHandler)
    (cs : List (List Nat))
    (hnew : DownloadHandler.new path none none = Except.ok h) :
    (h.acceptAll cs).2.file = cs.flatten ∧
      (h.acceptAll cs).1 = cs.map (fun c => Except.ok c.length) := by
  have hh : h = { file := [], path := path } := by
    unfold DownloadHandler.new at hnew
    cases hnew
    rfl
  subst hh
  refine ⟨?_, acceptAll_results cs _⟩
  simpa using acceptAll_file cs { file := [], path := path }

/-- Witness for C4 at a concrete fresh sink and chunks `[65,66]`, `[67]`. -/
theorem C4_sink_append_concat_witness :
    ((DownloadHandler.new "out.bin" none none = Except.ok handler0) ∧
      (handler0.acceptAll [[65, 66], [67]]).2.file = [[65, 66], [67]].flatten ∧
        (handler0.acceptAll [[65, 66], [67]]).1 =
          [[65, 66], [67]].map (fun c => Except.ok c.length)) :=
  ⟨rfl, C4_sink_append_concat "out.bin" handler0 [[65, 66], [67]] rfl⟩

/-- C8: `DownloadHandler::existing_file_size` returns the stat'ed size `S`
when the file exists with size `S`, and `0` when the path has no file or
cannot be stat'ed. -/
theorem C8_existing_file_size_query (h : DownloadHandler) (S : Nat) :
    h.existing_file_size (some S) = S ∧ h.existing_file_size none = 0 :=
  ⟨rfl, rfl⟩

/-- C10: whenever `perform` returns `Ok`, the returned response's body is
the empty byte vector (`let data = Vec::new()`), regardless of what the
transport streamed to the sink's file. -/
theorem C10_response_body_empty (env : PerformEnv) (c : HttpClientPerform)
    (resp : HttpResponse)
    (h : HttpClientPerform.perform env c = Except.ok resp) : resp.body = [] := by
  unfold HttpClientPerform.perform at h
  rcases h1 : statusFromU16 (env.responseCode % 65536) with sc | e <;>
    simp only [h1] at h <;> repeat' split at h
  all_goals first
    | exact Except.noConfusion h
    | (injection h with h2; subst h2; rfl)

/-- Witness for C10 at a concrete successful completion. -/
theorem C10_response_body_empty_witness :
    (HttpClientPerform.perform okPerformEnv clientP =
        Except.ok { status_code := 200, headers := [], body := [] }) ∧
      ({ status_code := 200, headers := [], body := [] } : HttpResponse).body = [] :=
  ⟨rfl,
   C10_response_body_empty okPerformEnv clientP
     { status_code := 200, headers := [], body := [] } rfl⟩

/-- C6: for every GET request with empty body, all-valid header values and
succeeding easy-handle mutators, `request` returns `Ok` of a Perform-phase
handle that carries the same transport engine reference and the configured
easy handle (URL set, translated header list installed, everything else as
it was on the Build-phase handle). -/
theorem C6_get_success (env : CurlEnv) (c : HttpClientBuild) (r : HttpRequest)
    (hm : r.method = Method.GET) (_hb : r.body = [])
    (hh : headersAllValid r.headers = true)
    (hu : env.urlOk = true) (ha : env.appendOk = true)
    (hih : env.httpHeadersOk = true) :
    (HttpClientBuild.request env c r).1 =
      ReqOutcome.ok
        { curl := c.curl
          easy := { c.easy with url := some r.url
                                httpHeaders := some (headerLines r.headers) } } := by
  have h1 : Easy2.set_url env c.easy r.url =
      Except.ok { c.easy with url := some r.url } := by
    simp [Easy2.set_url, hu]
  have h2 := buildHeaderLines_all_valid env ha r.headers hh
  have h3 : Easy2.set_http_headers env { c.easy with url := some r.url }
        (headerLines r.headers) =
      Except.ok { c.easy with url := some r.url
                              httpHeaders := some (headerLines r.headers) } := by
    simp [Easy2.set_http_headers, hih]
  simp [HttpClientBuild.request, h1, h2, h3, hm]

/-- Witness for C6 at a concrete GET request with empty body. -/
theorem C6_get_success_witness :
    (HttpClientBuild.request okCurlEnv client0 getReq).1 =
      ReqOutcome.ok
        { curl := client0.curl
          easy := { client0.easy with url := some getReq.url
                                      httpHeaders := some (headerLines getReq.headers) } } :=
  C6_get_success okCurlEnv client0 getReq rfl rfl rfl rfl rfl rfl

/-- C1 counterexample: on a concrete GET request with the non-empty body
`[65]` and every mutator succeeding, `request` does not hit the assertion
(the `assert_eq!` checks only the method): it returns `Ok` of a
Perform-phase handle instead of terminating. -/
theorem C1_get_nonempty_body_counterexample :
    ReqOutcome.isOk (HttpClientBuild.request okCurlEnv client0 getBodyReq).1 = true ∧
      (HttpClientBuild.request okCurlEnv client0 getBodyReq).1 ≠ ReqOutcome.fatal := by
  decide

/-- C1 (amended): a GET request with a non-empty body does not trigger the
assertion — the `assert_eq!` in the GET branch checks only that the method
is GET — so with valid headers and succeeding mutators the call returns
`Ok` of a Perform-phase handle, the body silently ignored. -/
theorem C1_get_nonempty_body_no_assertion (env : CurlEnv) (c : HttpClientBuild)
    (r : HttpRequest)
    (hm : r.method = Method.GET) (_hb : r.body ≠ [])
    (hh : headersAllValid r.headers = true)
    (hu : env.urlOk = true) (ha : env.appendOk = true)
    (hih : env.httpHeadersOk = true) :
    (HttpClientBuild.request env c r).1 ≠ ReqOutcome.fatal ∧
      (HttpClientBuild.request env c r).1 =
        ReqOutcome.ok
          { curl := c.curl
            easy := { c.easy with url := some r.url
                                  httpHeaders := some (headerLines r.headers) } } := by
  have h1 : Easy2.set_url env c.easy r.url =
      Except.ok { c.easy with url := some r.url } := by
    simp [Easy2.set_url, hu]
  have h2 := buildHeaderLines_all_valid env ha r.headers hh
  have h3 : Easy2.set_http_headers env { c.easy with url := some r.url }
        (headerLines r.headers) =
      Except.ok { c.easy with url := some r.url
                              httpHeaders := some (headerLines r.headers) } := by
    simp [Easy2.set_http_headers, hih]
  simp [HttpClientBuild.request, h1, h2, h3, hm]

/-- Witness for the amended C1 at the concrete GET-with-body request. -/
theorem C1_get_nonempty_body_no_assertion_witness :
    (HttpClientBuild.request okCurlEnv client0 getBodyReq).1 ≠ ReqOutcome.fatal ∧
      (HttpClientBuild.request okCurlEnv client0 getBodyReq).1 =
        ReqOutcome.ok
          { curl := client0.curl
            easy := { client0.easy with url := some getBodyReq.url
                                        httpHeaders := some (headerLines getBodyReq.headers) } } :=
  C1_get_nonempty_body_no_assertion okCurlEnv client0 getBodyReq rfl
    (by decide) rfl rfl rfl rfl

/-- C9: for every request whose method is neither GET nor POST (given the
earlier translation steps succeed), `request` ends in the assertion
failure — the fatal outcome — rather than an error value or a
Perform-phase handle. -/
theorem C9_other_method_fatal (env : CurlEnv) (c : HttpClientBuild) (r : HttpRequest)
    (s : String) (hm : r.method = Method.other s)
    (hh : headersAllValid r.headers = true)
    (hu : env.urlOk = true) (ha : env.appendOk = true)
    (hih : env.httpHeadersOk = true) :
    (HttpClientBuild.request env c r).1 = ReqOutcome.fatal := by
  have h1 : Easy2.set_url env c.easy r.url =
      Except.ok { c.easy with url := some r.url } := by
    simp [Easy2.set_url, hu]
  have h2 := buildHeaderLines_all_valid env ha r.headers hh
  have h3 : Easy2.set_http_headers env { c.easy with url := some r.url }
        (headerLines r.headers) =
      Except.ok { c.easy with url := some r.url
                              httpHeaders := some (headerLines r.headers) } := by
    simp [Easy2.set_http_headers, hih]
  simp [HttpClientBuild.request, h1, h2, h3, hm]

/-- Witness for C9 at a concrete PUT request. -/
theorem C9_other_method_fatal_witness :
    (HttpClientBuild.request okCurlEnv client0 putReq).1 = ReqOutcome.fatal :=
  C9_other_method_fatal okCurlEnv client0 putReq "PUT" rfl rfl rfl rfl rfl

/-- C2 counterexample: on a concrete request with the single header
`x-test` whose value byte `200` is not visible ASCII, `request` fails with
the `Error::Other` (ad-hoc) kind — not the HTTP-spec (`Error::Http`) kind
the claim names. -/
theorem C2_invalid_header_error_kind_counterexample :
    (HttpClientBuild.request okCurlEnv client0 badHeaderReq).1 =
        ReqOutcome.err (Error.Other "invalid x-test header value [200]") ∧
      ReqOutcome.isHttpErr (HttpClientBuild.request okCurlEnv client0 badHeaderReq).1 =
        false := by
  decide

/-- C2 (amended): for every request holding a header value that is not
valid visible-ASCII (given the URL mutator and the header-list appends
succeed), `request` returns the ad-hoc `Error::Other` error whose message
names the first offending header and its raw bytes, and `http_headers` is
never invoked, so the handle's installed header list is untouched. -/
theorem C2_invalid_header_other_error (env : CurlEnv) (c : HttpClientBuild)
    (r : HttpRequest) (n : String) (v : List Nat)
    (hu : env.urlOk = true) (ha : env.appendOk = true)
    (hf : firstInvalidHeader r.headers = some (n, v)) :
    (HttpClientBuild.request env c r).1 =
        ReqOutcome.err (Error.Other (invalidHeaderMsg n v)) ∧
      Mut.http_headers ∉ (HttpClientBuild.request env c r).2 := by
  have h1 : Easy2.set_url env c.easy r.url =
      Except.ok { c.easy with url := some r.url } := by
    simp [Easy2.set_url, hu]
  have herr := buildHeaderLines_first_invalid env ha n v r.headers hf
  have htr := buildHeaderLines_trace_append_only env r.headers
  rcases hbl : buildHeaderLines env r.headers with ⟨res, t⟩
  rw [hbl] at herr htr
  simp only at herr
  subst herr
  constructor
  · simp [HttpClientBuild.request, h1, hbl]
  · intro hmem
    simp only [HttpClientBuild.request, h1, hbl] at hmem
    simp only [List.mem_cons] at hmem
    rcases hmem with hmem | hmem
    · exact Mut.noConfusion hmem
    · exact Mut.noConfusion (htr _ hmem)

/-- Witness for the amended C2 at the concrete invalid-header request. -/
theorem C2_invalid_header_other_error_witness :
    (HttpClientBuild.request okCurlEnv client0 badHeaderReq).1 =
        ReqOutcome.err (Error.Other (invalidHeaderMsg "x-test" [200])) ∧
      Mut.http_headers ∉ (HttpClientBuild.request okCurlEnv client0 badHeaderReq).2 :=
  C2_invalid_header_other_error okCurlEnv client0 badHeaderReq "x-test" [200]
    rfl rfl (by decide)

/-- C5: for every POST request on which `request` succeeds, the Perform
handle's transport configuration declares `post_field_size` equal to the
exact body length and holds `post_fields_copy`'s copy of the body bytes
(the request value itself, being immutable data, is untouched). -/
theorem C5_post_body_config (env : CurlEnv) (c : HttpClientBuild) (r : HttpRequest)
    (p : HttpClientPerform)
    (hm : r.method = Method.POST)
    (hok : (HttpClientBuild.request env c r).1 = ReqOutcome.ok p) :
    p.easy.post = true ∧ p.easy.postFieldSize = some r.body.length ∧
      p.easy.postFields = some r.body := by
  unfold HttpClientBuild.request at hok
  rcases hurl : Easy2.set_url env c.easy r.url with e1 | easy1
  · simp [hurl] at hok
  · rcases hbl : buildHeaderLines env r.headers with ⟨res, t⟩
    cases res with
    | error e2 => simp [hurl, hbl] at hok
    | ok lines =>
      rcases hih : Easy2.set_http_headers env easy1 lines with e3 | easy2
      · simp [hurl, hbl, hih] at hok
      · rcases hp : Easy2.set_post env easy2 true with e4 | easy3
        · simp [hurl, hbl, hih, hm, hp] at hok
        · rcases hsz : Easy2.set_post_field_size env easy3 r.body.length with e5 | easy4
          · simp [hurl, hbl, hih, hm, hp, hsz] at hok
          · rcases hcp : Easy2.set_post_fields_copy env easy4 r.body with e6 | easy5
            · simp [hurl, hbl, hih, hm, hp, hsz, hcp] at hok
            · simp only [hurl, hbl, hih, hm, hp, hsz, hcp] at hok
              have h5 := set_post_fields_copy_ok_inv hcp
              have h4 := set_post_field_size_ok_inv hsz
              have h3 := set_post_ok_inv hp
              subst h5
              subst h4
              subst h3
              simp at hok
              rw [← hok]
              simp

/-- Witness for C5 at a concrete POST request with body `[1, 2, 3]`. -/
theorem C5_post_body_config_witness :
    (({ curl := 0
        easy := { handler := handler0, url := some postReq.url
                  httpHeaders := some [], post := true
                  postFieldSize := some 3, postFields := some [1, 2, 3] } } :
          HttpClientPerform).easy.post = true ∧
      ({ curl := 0
         easy := { handler := handler0, url := some postReq.url
                   httpHeaders := some [], post := true
                   postFieldSize := some 3, postFields := some [1, 2, 3] } } :
           HttpClientPerform).easy.postFieldSize = some postReq.body.length ∧
        ({ curl := 0
           easy := { handler := handler0, url := some postReq.url
                     httpHeaders := some [], post := true
                     postFieldSize := some 3, postFields := some [1, 2, 3] } } :
             HttpClientPerform).easy.postFields = some postReq.body) :=
  C5_post_body_config okCurlEnv client0 postReq _ rfl (by decide)

/-- C7 counterexample: a completed transfer reporting the response code
`65636` — not a legal HTTP status — does not make `perform` return an
HTTP-spec error as the claim requires: the `as u16` cast truncates it to
`100`, which passes validation, and `perform` returns a `Response` whose
status differs from the reported code. -/
theorem C7_status_truncation_counterexample :
    (¬(100 ≤ truncPerformEnv.responseCode ∧ truncPerformEnv.responseCode < 1000)) ∧
      HttpClientPerform.perform truncPerformEnv clientP =
        Except.ok { status_code := 100, headers := [], body := [] } := by
  constructor
  · decide
  · rfl

/-- C7 (amended): when the transport completes and both post-completion
accessors succeed, with a reported content-type (if any) that
`HeaderValue::from_str` accepts: if the 16-bit truncation of the reported
code is a legal HTTP status, `perform` returns a `Response` carrying that
truncated code and a header collection with exactly one content-type entry
when a content-type was reported (empty otherwise, body empty); if the
truncation is not legal, `perform` returns the HTTP-spec
invalid-status-code error. -/
theorem C7_perform_success_fields (env : PerformEnv) (c : HttpClientPerform)
    (hs : env.sendOk = true) (hr : env.responseCodeOk = true)
    (hc : env.contentTypeOk = true) (hct : ctAccepted env.contentType = true) :
    (100 ≤ env.responseCode % 65536 ∧ env.responseCode % 65536 < 1000 →
        HttpClientPerform.perform env c =
          Except.ok { status_code := env.responseCode % 65536
                      headers := ctHeaders env.contentType, body := [] }) ∧
      (¬(100 ≤ env.responseCode % 65536 ∧ env.responseCode % 65536 < 1000) →
        HttpClientPerform.perform env c =
          Except.error (Error.Http HttpSpecError.invalidStatusCode)) := by
  constructor
  · intro hleg
    cases hcteq : env.contentType with
    | none =>
      simp [HttpClientPerform.perform, hs, hr, hc, hcteq, statusFromU16, hleg, ctHeaders]
    | some ct =>
      have hok : headerValueFromStrOk ct = true := by
        rw [hcteq] at hct
        simpa [ctAccepted] using hct
      simp [HttpClientPerform.perform, hs, hr, hc, hcteq, hok, statusFromU16, hleg,
        ctHeaders]
  · intro hleg
    cases hcteq : env.contentType with
    | none =>
      simp [HttpClientPerform.perform, hs, hr, hc, hcteq, statusFromU16, hleg]
    | some ct =>
      have hok : headerValueFromStrOk ct = true := by
        rw [hcteq] at hct
        simpa [ctAccepted] using hct
      simp [HttpClientPerform.perform, hs, hr, hc, hcteq, hok, statusFromU16, hleg]

/-- Witness for the amended C7 at a completion reporting status `200` and
content-type bytes `"text"`. -/
theorem C7_perform_success_fields_witness :
    HttpClientPerform.perform ctPerformEnv clientP =
      Except.ok { status_code := ctPerformEnv.responseCode % 65536
                  headers := ctHeaders ctPerformEnv.contentType, body := [] } :=
  (C7_perform_success_fields ctPerformEnv clientP rfl rfl rfl (by decide)).1
    (by decide)

end HttpClientExample
